import Mathlib

/-!
# Vtable patching in `generic_class_init` (gperl-i11n-vfunc-object.c)

A shallow embedding of `generic_class_init`: the introspection descriptors it
reads, the class structure it patches (as bytes, addressed relative to the
`class` pointer), the trampolines it creates, and the descriptors it releases.
-/

set_option autoImplicit false

namespace GPerlI11n

/-! ## Data model -/

/-- One byte of memory (`guint8`). -/
abbrev guint8 := Fin 256

/-- A `gpointer` value, given by its object representation: `w = sizeof (gpointer)` bytes. -/
abbrev gpointer (w : Nat) := Fin w → guint8

/-- The null pointer: every byte of the representation is zero. -/
def NULL (w : Nat) : gpointer w := fun _ => 0

/-- The contents of a NUL-terminated `gchar` string: the byte values before the terminator. -/
abbrev gstring := List Nat

/-- The bytes of an ASCII literal. -/
def ascii (s : String) : gstring := s.toList.map Char.toNat

/-- Memory of the class structure: the byte at each offset from the `class` pointer. -/
abbrev Memory := Int → guint8

/-- A type descriptor (`GITypeInfo`), identified by a tag. -/
structure GITypeInfo where
  tag : Nat
deriving DecidableEq

/-- A field descriptor (`GIFieldInfo`): name, byte offset (`gint`) and declared type. -/
structure GIFieldInfo where
  name : gstring
  offset : Int
  type : GITypeInfo
deriving DecidableEq

/-- A struct descriptor (`GIStructInfo`): its fields, in index order. -/
structure GIStructInfo where
  fields : List GIFieldInfo
deriving DecidableEq

/-- A virtual-function descriptor (`GIVFuncInfo`): name and the offset the metadata reports. -/
structure GIVFuncInfo where
  name : gstring
  offset : Int
deriving DecidableEq

/-- An object type descriptor (`GIObjectInfo`): the class struct descriptor (null when the
type exposes none) and the virtual functions, in index order. -/
structure GIObjectInfo where
  class_struct : Option GIStructInfo
  vfuncs : List GIVFuncInfo
deriving DecidableEq

/-- A descriptor handle as passed to `g_base_info_unref`. -/
inductive GIBaseInfo where
  | vfunc_info (v : GIVFuncInfo)
  | field_info (f : GIFieldInfo)
  | type_info (t : GITypeInfo)
  | struct_info (s : GIStructInfo)
deriving DecidableEq

/-- A trampoline (`GPerlI11nCallbackInfo`): native entry point, bound Perl sub name and the
callable type it marshals for. -/
structure GPerlI11nCallbackInfo (w : Nat) where
  closure : gpointer w
  sub_name : gstring
  interface : GITypeInfo

/-- The closure allocator: the entry point it hands out, given the trampolines created so
far, the type descriptor and the sub name. -/
abbrev Allocator (w : Nat) := List (GPerlI11nCallbackInfo w) → GITypeInfo → gstring → gpointer w

/-- One line of the `dwarn` diagnostic of the loop body. -/
structure DwarnLine where
  vfunc_name : gstring
  perl_method_name : gstring
  field_offset : Int
  vfunc_offset : Int
deriving DecidableEq

/-- What `generic_class_init` acts on: the class structure, the trampolines created so
far (none is ever freed), and three event logs: the pointer writes into the class
structure, the `dwarn` lines, and the descriptors handed to `g_base_info_unref`. -/
structure State (w : Nat) where
  klass : Memory
  callbacks : List (GPerlI11nCallbackInfo w)
  stores : List (Int × gpointer w)
  dwarn : List DwarnLine
  released : List GIBaseInfo

/-- How a call of `generic_class_init` ends. -/
inductive Outcome where
  /-- The end of the function body was reached. -/
  | returned
  /-- The `g_assert (field_info)` of iteration `i` failed. -/
  | assert_field_info (i : Nat)
  /-- The loop finished and a null `struct_info` was handed to `g_base_info_unref`,
  which the function does without any check of its own; what the library does with a
  null descriptor is not part of the function. -/
  | unref_null
deriving DecidableEq

/-! ## Library operations -/

/-- GLib's `g_ascii_islower`: the byte is one of `'a'..'z'`. -/
def g_ascii_islower (c : Nat) : Bool :=
  decide ('a'.toNat ≤ c ∧ c ≤ 'z'.toNat)

/-- GLib's `g_ascii_toupper`, which is `g_ascii_islower (c) ? c - 'a' + 'A' : c`. -/
def g_ascii_toupper (c : Nat) : Nat :=
  if g_ascii_islower c then c - 'a'.toNat + 'A'.toNat else c

/-- Modelled from the spec: `g_ascii_strup (str, -1)` is GLib's and not part of the file;
the specification reads it as the ASCII uppercase transform of the whole string, bytes
outside `'a'..'z'` passing through. As in GLib, the result is a copy of the string with
`g_ascii_toupper` applied to every byte. -/
def g_ascii_strup (str : gstring) : gstring :=
  str.map g_ascii_toupper

/-- The uppercase transform in the words of the specification: a byte `'a'..'z'` becomes
the corresponding `'A'..'Z'` (32 less), any other byte passes through. -/
def spec_uppercase_byte (c : Nat) : Nat :=
  if 97 ≤ c ∧ c ≤ 122 then c - 32 else c

/-- Introspection `g_object_info_get_class_struct`. -/
def g_object_info_get_class_struct (info : GIObjectInfo) : Option GIStructInfo :=
  info.class_struct

/-- Introspection `g_object_info_get_n_vfuncs`. -/
def g_object_info_get_n_vfuncs (info : GIObjectInfo) : Nat :=
  info.vfuncs.length

/-- Introspection `g_base_info_get_name` on a virtual-function descriptor. -/
def g_base_info_get_name (vfunc_info : GIVFuncInfo) : gstring :=
  vfunc_info.name

/-- Introspection `g_field_info_get_offset`. -/
def g_field_info_get_offset (field_info : GIFieldInfo) : Int :=
  field_info.offset

/-- Introspection `g_field_info_get_type`. -/
def g_field_info_get_type (field_info : GIFieldInfo) : GITypeInfo :=
  field_info.type

/-- Introspection `g_vfunc_info_get_offset`. -/
def g_vfunc_info_get_offset (vfunc_info : GIVFuncInfo) : Int :=
  vfunc_info.offset

/-- Modelled from the spec: `get_field_info` is a helper of this binding that is not part
of the file; the specification has it look up the field of the class struct descriptor
whose name equals the given name, by exact string match. The first such field in index
order is returned. What the helper does with an absent (null) descriptor is said neither
by the file nor by the specification; the model lets the lookup find no field then. -/
def get_field_info (struct_info : Option GIStructInfo) (name : gstring) : Option GIFieldInfo :=
  match struct_info with
  | none => none
  | some s => s.fields.find? (fun f => decide (f.name = name))

/-- Modelled from the spec: `create_callback_closure_for_named_sub` is not part of the
file; the specification has it create a trampoline bound to the given type signature and
host-method identifier, exposing a native entry point. The entry point is the one the
closure allocator hands out. -/
def create_callback_closure_for_named_sub (w : Nat) (alloc : Allocator w)
    (live : List (GPerlI11nCallbackInfo w)) (cb_type : GITypeInfo) (sub_name : gstring) :
    GPerlI11nCallbackInfo w :=
  { closure := alloc live cb_type sub_name, sub_name := sub_name, interface := cb_type }

/-- The pointer-sized slot of the class structure at byte offset `off`, read as a pointer
(`G_STRUCT_MEMBER (gpointer, class, off)` as a value): the `w` bytes from `off`. -/
def G_STRUCT_MEMBER (w : Nat) (klass : Memory) (off : Int) : gpointer w :=
  fun j => klass (off + (j.val : Int))

/-- Modelled from the spec: the macro `G_STRUCT_MEMBER` is GLib's and not part of the file;
the specification has `G_STRUCT_MEMBER (gpointer, class, off) = p` be a raw, untyped,
pointer-sized write at byte offset `off`: bytes `off .. off + w - 1` take the
representation of `p`, every other byte is kept. -/
def G_STRUCT_MEMBER_set (w : Nat) (klass : Memory) (off : Int) (p : gpointer w) : Memory :=
  fun a =>
    if h : off ≤ a ∧ a < off + (w : Int) then
      p ⟨(a - off).toNat, by omega⟩
    else klass a

/-! ## The function -/

/-- The body of the loop of `generic_class_init` for one virtual function; `none` when
`g_assert (field_info)` fails. -/
def install_vfunc (w : Nat) (alloc : Allocator w) (struct_info : Option GIStructInfo)
    (vfunc_info : GIVFuncInfo) (st : State w) : Option (State w) :=
  let vfunc_name := g_base_info_get_name vfunc_info
  match get_field_info struct_info vfunc_name with
  | none => none
  | some field_info =>
    let field_offset := g_field_info_get_offset field_info
    let field_type_info := g_field_info_get_type field_info
    let perl_method_name := g_ascii_strup vfunc_name
    let callback_info := create_callback_closure_for_named_sub w alloc st.callbacks
      field_type_info perl_method_name
    some
      { klass := G_STRUCT_MEMBER_set w st.klass field_offset callback_info.closure
        callbacks := st.callbacks ++ [callback_info]
        stores := st.stores ++ [(field_offset, callback_info.closure)]
        dwarn := st.dwarn ++ [{ vfunc_name := vfunc_name, perl_method_name := perl_method_name,
                                field_offset := field_offset,
                                vfunc_offset := g_vfunc_info_get_offset vfunc_info }]
        released := st.released ++ [GIBaseInfo.type_info field_type_info,
                                    GIBaseInfo.field_info field_info,
                                    GIBaseInfo.vfunc_info vfunc_info] }

/-- The loop `for (i = 0; i < n; i++)`, from iteration `i` on, over the virtual-function
descriptors `g_object_info_get_vfunc (info, i)`, `(info, i + 1)`, ... still to visit.
The first component is the index of the iteration whose assertion failed, if one did. -/
def vfunc_loop (w : Nat) (alloc : Allocator w) (struct_info : Option GIStructInfo) :
    Nat → List GIVFuncInfo → State w → Option Nat × State w
  | _, [], st => (none, st)
  | i, vfunc_info :: rest, st =>
    match install_vfunc w alloc struct_info vfunc_info st with
    | none => (some i, st)
    | some st' => vfunc_loop w alloc struct_info (i + 1) rest st'

/-- The function `generic_class_init (info, class)`. -/
def generic_class_init (w : Nat) (alloc : Allocator w) (info : GIObjectInfo) (st : State w) :
    Outcome × State w :=
  let struct_info := g_object_info_get_class_struct info
  match vfunc_loop w alloc struct_info 0 info.vfuncs st with
  | (some i, st') => (Outcome.assert_field_info i, st')
  | (none, st') =>
    match struct_info with
    | some s => (Outcome.returned, { st' with released := st'.released ++ [GIBaseInfo.struct_info s] })
    | none => (Outcome.unref_null, st')

/-! ## Derived notions used to state the properties -/

/-- The byte at offset `a` lies in the pointer-sized slot that starts at offset `off`. -/
def in_slot (w : Nat) (off a : Int) : Prop :=
  off ≤ a ∧ a < off + (w : Int)

/-- The pointer-sized slots at offsets `a` and `b` share no byte. -/
def slot_disjoint (w : Nat) (a b : Int) : Prop :=
  a + (w : Int) ≤ b ∨ b + (w : Int) ≤ a

instance (w : Nat) (off a : Int) : Decidable (in_slot w off a) := by
  unfold in_slot; infer_instance

instance (w : Nat) (a b : Int) : Decidable (slot_disjoint w a b) := by
  unfold slot_disjoint; infer_instance

/-- The offsets of the fields that name lookup finds for the virtual functions, in the
order of the virtual functions (a virtual function without a field contributes none). -/
def matched_offsets (struct_info : Option GIStructInfo) (vfuncs : List GIVFuncInfo) : List Int :=
  vfuncs.filterMap (fun v => (get_field_info struct_info v.name).map GIFieldInfo.offset)

/-- A list of pointer writes performed in order on a memory. -/
def apply_stores (w : Nat) (l : List (Int × gpointer w)) (m : Memory) : Memory :=
  l.foldl (fun m x => G_STRUCT_MEMBER_set w m x.1 x.2) m

/-- One completed iteration of the loop: the virtual function, the field found for it
and the trampoline created for it. -/
structure Iteration (w : Nat) where
  vfunc_info : GIVFuncInfo
  field_info : GIFieldInfo
  callback_info : GPerlI11nCallbackInfo w

/-- The pointer write of a completed iteration. -/
def Iteration.store {w : Nat} (x : Iteration w) : Int × gpointer w :=
  (x.field_info.offset, x.callback_info.closure)

/-- The iterations the loop completes over the given virtual functions when `live` are the
trampolines that exist at its start: it stops at the first name without a field. -/
def completed (w : Nat) (alloc : Allocator w) (struct_info : Option GIStructInfo) :
    List GIVFuncInfo → List (GPerlI11nCallbackInfo w) → List (Iteration w)
  | [], _ => []
  | v :: rest, live =>
    match get_field_info struct_info v.name with
    | none => []
    | some f =>
      let cb := create_callback_closure_for_named_sub w alloc live f.type (g_ascii_strup v.name)
      { vfunc_info := v, field_info := f, callback_info := cb } ::
        completed w alloc struct_info rest (live ++ [cb])

/-- The state after the given completed iterations. -/
def State.extend {w : Nat} (st : State w) (l : List (Iteration w)) : State w :=
  { klass := apply_stores w (l.map Iteration.store) st.klass
    callbacks := st.callbacks ++ l.map Iteration.callback_info
    stores := st.stores ++ l.map Iteration.store
    dwarn := st.dwarn ++ l.map (fun x =>
      { vfunc_name := x.vfunc_info.name, perl_method_name := g_ascii_strup x.vfunc_info.name,
        field_offset := x.field_info.offset, vfunc_offset := x.vfunc_info.offset })
    released := st.released ++ (l.map (fun x =>
      [GIBaseInfo.type_info x.field_info.type, GIBaseInfo.field_info x.field_info,
       GIBaseInfo.vfunc_info x.vfunc_info])).flatten }

/-- Slot `i` is installed: virtual function `i` is some `v`, name lookup finds a field `f`
for its name, trampoline number `i` of the call is the one the factory created (in the
state it had then) from the type of `f` and the uppercased name of `v`, and the
pointer-sized slot at the offset of `f` holds the entry point of that trampoline. -/
def slot_installed (w : Nat) (alloc : Allocator w) (info : GIObjectInfo)
    (before after : State w) (i : Nat) : Prop :=
  ∃ (v : GIVFuncInfo) (f : GIFieldInfo) (cb : GPerlI11nCallbackInfo w),
    info.vfuncs[i]? = some v ∧ get_field_info info.class_struct v.name = some f ∧
    after.callbacks[before.callbacks.length + i]? = some cb ∧
    cb = create_callback_closure_for_named_sub w alloc
           (after.callbacks.take (before.callbacks.length + i)) f.type (g_ascii_strup v.name) ∧
    G_STRUCT_MEMBER w after.klass f.offset = cb.closure

/-- Exactly the given slots of a memory are non-null: they share no byte, each holds the
listed pointer, the listed pointers are non-null and pairwise distinct, and every byte
outside them is zero. -/
def exactly_nonnull_slots (w : Nat) (m : Memory) (slots : List (Int × gpointer w)) : Prop :=
  slots.Pairwise (fun x y => slot_disjoint w x.1 y.1) ∧
  (slots.map Prod.snd).Nodup ∧
  (∀ x ∈ slots, x.2 ≠ NULL w ∧ G_STRUCT_MEMBER w m x.1 = x.2) ∧
  (∀ a : Int, (∀ x ∈ slots, ¬ in_slot w x.1 a) → m a = 0)

/-- The pointer writes a call added to the log of a state. -/
def new_stores {w : Nat} (before after : State w) : List (Int × gpointer w) :=
  after.stores.drop before.stores.length

/-- The trampolines a call added to those of a state. -/
def new_callbacks {w : Nat} (before after : State w) : List (GPerlI11nCallbackInfo w) :=
  after.callbacks.drop before.callbacks.length

/-- Every call of the trampoline factory made between two states returned a fresh non-null
entry point: the entry points of the trampolines created are non-null and pairwise
distinct. -/
def fresh_entry_points {w : Nat} (before after : State w) : Prop :=
  ((new_callbacks before after).map GPerlI11nCallbackInfo.closure).Nodup ∧
  ∀ cb ∈ new_callbacks before after, cb.closure ≠ NULL w

/-! ## Concrete inputs -/

/-- An allocator for the examples: the entry point handed out has the number of the
trampoline (counted from 1) in its first byte and zero in the others. -/
def bump_alloc (w : Nat) : Allocator w :=
  fun live _ _ j => if j.val = 0 then ⟨(live.length + 1) % 256, Nat.mod_lt _ (by decide)⟩ else 0

/-- The type `Foo` of the specification: virtual functions `do_thing` and `do_other` (the
metadata reports offsets `r1` and `r2` for them), class-struct fields of these names at
offsets `o1` and `o2`. -/
def foo_info (o1 o2 r1 r2 : Int) : GIObjectInfo :=
  { class_struct := some { fields := [
      { name := ascii "do_thing", offset := o1, type := { tag := 1 } },
      { name := ascii "do_other", offset := o2, type := { tag := 2 } }] },
    vfuncs := [{ name := ascii "do_thing", offset := r1 },
               { name := ascii "do_other", offset := r2 }] }

/-- A freshly allocated, all-null class structure, before anything was created. -/
def fresh_state (w : Nat) : State w :=
  { klass := fun _ => 0, callbacks := [], stores := [], dwarn := [], released := [] }

/-- A type with a virtual function `no_field` that has no field in the class struct,
between two that have one (at offsets 16 and 24). -/
def gap_info : GIObjectInfo :=
  { class_struct := (foo_info 16 24 0 0).class_struct,
    vfuncs := [{ name := ascii "do_thing", offset := 16 },
               { name := ascii "no_field", offset := 32 },
               { name := ascii "do_other", offset := 24 }] }

/-- A type that exposes no class struct descriptor and has no virtual function. -/
def bare_info : GIObjectInfo :=
  { class_struct := none, vfuncs := [] }

/-- A type whose only virtual function is `do_thing`; the class struct has the fields
`do_thing` at offset `o1` and `do_other` at offset `o2`. -/
def one_vfunc_info (o1 o2 : Int) : GIObjectInfo :=
  { class_struct := (foo_info o1 o2 0 0).class_struct,
    vfuncs := [{ name := ascii "do_thing", offset := 0 }] }

/-! ## Memory lemmas -/

theorem set_outside (w : Nat) (m : Memory) (off : Int) (p : gpointer w) (a : Int)
    (h : ¬ in_slot w off a) : G_STRUCT_MEMBER_set w m off p a = m a := by
  unfold in_slot at h
  unfold G_STRUCT_MEMBER_set
  rw [dif_neg h]

theorem get_set_same (w : Nat) (m : Memory) (off : Int) (p : gpointer w) :
    G_STRUCT_MEMBER w (G_STRUCT_MEMBER_set w m off p) off = p := by
  funext j
  have hj := j.isLt
  have hin : off ≤ off + (j.val : Int) ∧ off + (j.val : Int) < off + (w : Int) := by
    constructor <;> omega
  simp only [G_STRUCT_MEMBER, G_STRUCT_MEMBER_set]
  rw [dif_pos hin]
  congr 1
  apply Fin.ext
  simp

theorem not_in_slot_of_disjoint (w : Nat) (a b : Int) (j : Fin w)
    (h : slot_disjoint w a b) : ¬ in_slot w a (b + (j.val : Int)) := by
  have hj := j.isLt
  unfold slot_disjoint at h
  unfold in_slot
  omega

theorem apply_stores_nil (w : Nat) (m : Memory) : apply_stores w [] m = m := rfl

theorem apply_stores_cons (w : Nat) (x : Int × gpointer w) (l : List (Int × gpointer w))
    (m : Memory) :
    apply_stores w (x :: l) m = apply_stores w l (G_STRUCT_MEMBER_set w m x.1 x.2) := rfl

theorem apply_stores_append (w : Nat) (l₁ l₂ : List (Int × gpointer w)) (m : Memory) :
    apply_stores w (l₁ ++ l₂) m = apply_stores w l₂ (apply_stores w l₁ m) := by
  unfold apply_stores
  rw [List.foldl_append]

theorem apply_stores_outside (w : Nat) (l : List (Int × gpointer w)) (m : Memory) (a : Int)
    (h : ∀ x ∈ l, ¬ in_slot w x.1 a) : apply_stores w l m a = m a := by
  induction l generalizing m with
  | nil => rfl
  | cons x l ih =>
    rw [apply_stores_cons, ih _ (fun y hy => h y (List.mem_cons_of_mem _ hy))]
    exact set_outside w m x.1 x.2 a (h x (List.mem_cons_self _ _))

theorem get_apply_stores_of_disjoint (w : Nat) (l : List (Int × gpointer w)) (m : Memory)
    (off : Int) (h : ∀ x ∈ l, slot_disjoint w x.1 off) :
    G_STRUCT_MEMBER w (apply_stores w l m) off = G_STRUCT_MEMBER w m off := by
  funext j
  unfold G_STRUCT_MEMBER
  exact apply_stores_outside w l m _ (fun x hx => not_in_slot_of_disjoint w x.1 off j (h x hx))

theorem get_apply_stores_of_mem (w : Nat) (l : List (Int × gpointer w)) (m : Memory)
    (hp : l.Pairwise (fun x y => slot_disjoint w x.1 y.1)) (x : Int × gpointer w)
    (hx : x ∈ l) : G_STRUCT_MEMBER w (apply_stores w l m) x.1 = x.2 := by
  induction l generalizing m with
  | nil => cases hx
  | cons y l ih =>
    rw [apply_stores_cons]
    rw [List.pairwise_cons] at hp
    rcases List.mem_cons.mp hx with rfl | hmem
    · rw [get_apply_stores_of_disjoint w l _ x.1
        (fun z hz => by
          have := hp.1 z hz
          unfold slot_disjoint at this ⊢
          omega)]
      exact get_set_same w m x.1 x.2
    · exact ih _ hp.2 hmem

theorem get_apply_stores_last (w : Nat) (l : List (Int × gpointer w)) (m : Memory)
    (x : Int × gpointer w) :
    G_STRUCT_MEMBER w (apply_stores w (l ++ [x]) m) x.1 = x.2 := by
  rw [apply_stores_append, apply_stores_cons, apply_stores_nil]
  exact get_set_same w _ x.1 x.2

/-! ## The loop, iteration by iteration -/

theorem vfunc_loop_eq (w : Nat) (alloc : Allocator w) (si : Option GIStructInfo)
    (vs : List GIVFuncInfo) (i : Nat) (st : State w) :
    vfunc_loop w alloc si i vs st =
      (if (completed w alloc si vs st.callbacks).length = vs.length then none
        else some (i + (completed w alloc si vs st.callbacks).length),
       st.extend (completed w alloc si vs st.callbacks)) := by
  induction vs generalizing i st with
  | nil => simp [vfunc_loop, completed, State.extend, apply_stores]
  | cons v vs ih =>
    unfold vfunc_loop install_vfunc completed
    simp only [g_base_info_get_name]
    cases hf : get_field_info si v.name with
    | none => simp [State.extend, apply_stores]
    | some f =>
      simp only [ih]
      simp only [g_field_info_get_offset, g_field_info_get_type, g_vfunc_info_get_offset,
        List.length_cons, Nat.add_right_cancel_iff]
      refine Prod.ext ?_ ?_
      · simp only
        split_ifs <;> simp
        all_goals omega
      · simp [State.extend, apply_stores, Iteration.store]

theorem generic_class_init_eq (w : Nat) (alloc : Allocator w) (info : GIObjectInfo)
    (st : State w) :
    generic_class_init w alloc info st =
      if (completed w alloc info.class_struct info.vfuncs st.callbacks).length
          = info.vfuncs.length then
        match info.class_struct with
        | some s =>
          (Outcome.returned,
            { st.extend (completed w alloc info.class_struct info.vfuncs st.callbacks) with
              released := (st.extend (completed w alloc info.class_struct info.vfuncs
                st.callbacks)).released ++ [GIBaseInfo.struct_info s] })
        | none =>
          (Outcome.unref_null,
            st.extend (completed w alloc info.class_struct info.vfuncs st.callbacks))
      else
        (Outcome.assert_field_info
            (completed w alloc info.class_struct info.vfuncs st.callbacks).length,
          st.extend (completed w alloc info.class_struct info.vfuncs st.callbacks)) := by
  unfold generic_class_init
  simp only [g_object_info_get_class_struct, vfunc_loop_eq]
  split_ifs with h
  · cases hs : info.class_struct <;> simp
  · simp

theorem generic_class_init_klass (w : Nat) (alloc : Allocator w) (info : GIObjectInfo)
    (st : State w) :
    (generic_class_init w alloc info st).2.klass =
      apply_stores w ((completed w alloc info.class_struct info.vfuncs st.callbacks).map
        Iteration.store) st.klass := by
  rw [generic_class_init_eq]
  split_ifs with h
  · cases hs : info.class_struct <;> simp [State.extend]
  · simp [State.extend]

theorem generic_class_init_callbacks (w : Nat) (alloc : Allocator w) (info : GIObjectInfo)
    (st : State w) :
    (generic_class_init w alloc info st).2.callbacks =
      st.callbacks ++ (completed w alloc info.class_struct info.vfuncs st.callbacks).map
        Iteration.callback_info := by
  rw [generic_class_init_eq]
  split_ifs with h
  · cases hs : info.class_struct <;> simp [State.extend]
  · simp [State.extend]

theorem generic_class_init_stores (w : Nat) (alloc : Allocator w) (info : GIObjectInfo)
    (st : State w) :
    (generic_class_init w alloc info st).2.stores =
      st.stores ++ (completed w alloc info.class_struct info.vfuncs st.callbacks).map
        Iteration.store := by
  rw [generic_class_init_eq]
  split_ifs with h
  · cases hs : info.class_struct <;> simp [State.extend]
  · simp [State.extend]

theorem generic_class_init_outcome (w : Nat) (alloc : Allocator w) (info : GIObjectInfo)
    (st : State w) :
    (generic_class_init w alloc info st).1 =
      if (completed w alloc info.class_struct info.vfuncs st.callbacks).length
          = info.vfuncs.length then
        (match info.class_struct with
          | some _ => Outcome.returned
          | none => Outcome.unref_null)
      else
        Outcome.assert_field_info
          (completed w alloc info.class_struct info.vfuncs st.callbacks).length := by
  rw [generic_class_init_eq]
  split_ifs with h
  · cases hs : info.class_struct <;> simp
  · simp

theorem completed_length_of_all (w : Nat) (alloc : Allocator w) (si : Option GIStructInfo)
    (vs : List GIVFuncInfo) (live : List (GPerlI11nCallbackInfo w))
    (hall : ∀ v ∈ vs, (get_field_info si v.name).isSome = true) :
    (completed w alloc si vs live).length = vs.length := by
  induction vs generalizing live with
  | nil => simp [completed]
  | cons v vs ih =>
    unfold completed
    have hv := hall v (List.mem_cons_self _ _)
    cases hf : get_field_info si v.name with
    | none => rw [hf] at hv; cases hv
    | some f =>
      simp only [List.length_cons]
      rw [ih _ (fun u hu => hall u (List.mem_cons_of_mem _ hu))]

theorem completed_get (w : Nat) (alloc : Allocator w) (si : Option GIStructInfo)
    (vs : List GIVFuncInfo) (live : List (GPerlI11nCallbackInfo w)) (j : Nat)
    (x : Iteration w) (hx : (completed w alloc si vs live)[j]? = some x) :
    vs[j]? = some x.vfunc_info ∧
    get_field_info si x.vfunc_info.name = some x.field_info ∧
    x.callback_info = create_callback_closure_for_named_sub w alloc
      (live ++ ((completed w alloc si vs live).take j).map Iteration.callback_info)
      x.field_info.type (g_ascii_strup x.vfunc_info.name) := by
  induction vs generalizing live j with
  | nil => simp [completed] at hx
  | cons v vs ih =>
    unfold completed at hx ⊢
    cases hf : get_field_info si v.name with
    | none => rw [hf] at hx; simp at hx
    | some f =>
      rw [hf] at hx
      simp only at hx ⊢
      cases j with
      | zero =>
        simp only [List.getElem?_cons_zero, Option.some.injEq] at hx
        subst hx
        simp [hf]
      | succ j =>
        simp only [List.getElem?_cons_succ] at hx
        obtain ⟨h1, h2, h3⟩ := ih _ j hx
        refine ⟨by simpa using h1, h2, ?_⟩
        rw [h3]
        simp

theorem completed_offsets_sublist (w : Nat) (alloc : Allocator w) (si : Option GIStructInfo)
    (vs : List GIVFuncInfo) (live : List (GPerlI11nCallbackInfo w)) :
    List.Sublist (((completed w alloc si vs live).map Iteration.store).map Prod.fst)
      (matched_offsets si vs) := by
  induction vs generalizing live with
  | nil => simp [completed, matched_offsets]
  | cons v vs ih =>
    unfold completed matched_offsets
    cases hf : get_field_info si v.name with
    | none => simp
    | some f =>
      simp only [List.map_cons, List.filterMap_cons, hf, Option.map_some']
      exact List.Sublist.cons₂ _ (ih _)

theorem completed_stores_pairwise (w : Nat) (alloc : Allocator w) (si : Option GIStructInfo)
    (vs : List GIVFuncInfo) (live : List (GPerlI11nCallbackInfo w))
    (hdisj : (matched_offsets si vs).Pairwise (slot_disjoint w)) :
    ((completed w alloc si vs live).map Iteration.store).Pairwise
      (fun x y => slot_disjoint w x.1 y.1) := by
  have h := hdisj.sublist (completed_offsets_sublist w alloc si vs live)
  exact List.pairwise_map.mp h

theorem slot_holds_closure (w : Nat) (alloc : Allocator w) (info : GIObjectInfo)
    (st : State w)
    (hdisj : (matched_offsets info.class_struct info.vfuncs).Pairwise (slot_disjoint w))
    (x : Iteration w)
    (hx : x ∈ completed w alloc info.class_struct info.vfuncs st.callbacks) :
    G_STRUCT_MEMBER w (generic_class_init w alloc info st).2.klass x.field_info.offset
      = x.callback_info.closure := by
  rw [generic_class_init_klass]
  exact get_apply_stores_of_mem w _ st.klass
    (completed_stores_pairwise w alloc _ _ _ hdisj) x.store (List.mem_map_of_mem _ hx)

theorem slot_installed_of_completed (w : Nat) (alloc : Allocator w) (info : GIObjectInfo)
    (st : State w)
    (hdisj : (matched_offsets info.class_struct info.vfuncs).Pairwise (slot_disjoint w))
    (i : Nat)
    (hi : i < (completed w alloc info.class_struct info.vfuncs st.callbacks).length) :
    slot_installed w alloc info st (generic_class_init w alloc info st).2 i := by
  have hx := List.getElem?_eq_getElem hi
  obtain ⟨h1, h2, h3⟩ := completed_get w alloc _ _ _ i _ hx
  refine ⟨_, _, ((completed w alloc info.class_struct info.vfuncs st.callbacks)[i]).callback_info,
    h1, h2, ?_, ?_, ?_⟩
  · rw [generic_class_init_callbacks, List.getElem?_append_right (Nat.le_add_right _ _)]
    simp [hx]
  · rw [generic_class_init_callbacks, h3]
    congr 1
    rw [List.take_append_eq_append_take]
    simp [List.map_take]
  · exact slot_holds_closure w alloc info st hdisj _ (List.getElem_mem hi)

/-! ## Installation of the trampolines (claims C1 and C2) -/

theorem slot_disjoint_of_aligned (w : Nat) (a b : Int) (ha : (w : Int) ∣ a)
    (hb : (w : Int) ∣ b) (hne : a ≠ b) : slot_disjoint w a b := by
  obtain ⟨k₁, rfl⟩ := ha
  obtain ⟨k₂, rfl⟩ := hb
  unfold slot_disjoint
  have hw : (0 : Int) ≤ (w : Int) := Int.ofNat_nonneg w
  have hk : k₁ ≠ k₂ := fun h => hne (by rw [h])
  rcases lt_or_gt_of_ne hk with h | h
  · left
    have h1 : (w : Int) * (k₁ + 1) ≤ (w : Int) * k₂ :=
      Int.mul_le_mul_of_nonneg_left (by omega) hw
    rw [Int.mul_add, Int.mul_one] at h1
    exact h1
  · right
    have h1 : (w : Int) * (k₂ + 1) ≤ (w : Int) * k₁ :=
      Int.mul_le_mul_of_nonneg_left (by omega) hw
    rw [Int.mul_add, Int.mul_one] at h1
    exact h1

theorem pairwise_disjoint_of_aligned (w : Nat) (l : List Int) (hnd : l.Nodup)
    (halign : ∀ o ∈ l, (w : Int) ∣ o) : l.Pairwise (slot_disjoint w) :=
  List.Pairwise.imp_of_mem
    (fun ha hb hne => slot_disjoint_of_aligned w _ _ (halign _ ha) (halign _ hb) hne) hnd

/-- C1: for a type whose class struct descriptor is present, whose every virtual-function
name has a field of exactly that name in the class struct, and whose matched fields have
pairwise distinct offsets (each aligned for a pointer-sized write, which the caller
guarantees), `generic_class_init` returns and, for every `i` in `[0, n)`, the
pointer-sized slot of the class structure at the offset of the field named like virtual
function `i` holds the entry point of the trampoline created from that field's type
descriptor and the uppercased name of virtual function `i`. -/
theorem generic_class_init_installs (w : Nat) (alloc : Allocator w) (info : GIObjectInfo)
    (s : GIStructInfo) (st : State w)
    (hs : info.class_struct = some s)
    (hall : ∀ v ∈ info.vfuncs, (get_field_info (some s) v.name).isSome = true)
    (hnd : (matched_offsets (some s) info.vfuncs).Nodup)
    (halign : ∀ o ∈ matched_offsets (some s) info.vfuncs, (w : Int) ∣ o) :
    (generic_class_init w alloc info st).1 = Outcome.returned ∧
    ∀ i, i < g_object_info_get_n_vfuncs info →
      slot_installed w alloc info st (generic_class_init w alloc info st).2 i := by
  have hlen := completed_length_of_all w alloc (some s) info.vfuncs st.callbacks hall
  have hdisj := pairwise_disjoint_of_aligned w _ hnd halign
  rw [← hs] at hlen hdisj
  refine ⟨?_, ?_⟩
  · rw [generic_class_init_outcome, if_pos hlen, hs]
  · intro i hi
    exact slot_installed_of_completed w alloc info st hdisj i (by rw [hlen]; exact hi)

/-- The scenario of the specification, fields at offsets 16 and 24 on a machine with 8-byte
pointers: `DO_THING` is installed at `class + 16` and `DO_OTHER` at `class + 24`. -/
theorem generic_class_init_installs_witness :
    (foo_info 16 24 0 0).class_struct = some { fields := [
      { name := ascii "do_thing", offset := 16, type := { tag := 1 } },
      { name := ascii "do_other", offset := 24, type := { tag := 2 } }] } ∧
    (matched_offsets (foo_info 16 24 0 0).class_struct (foo_info 16 24 0 0).vfuncs).Nodup ∧
    (∀ o ∈ matched_offsets (foo_info 16 24 0 0).class_struct (foo_info 16 24 0 0).vfuncs,
      ((8 : Nat) : Int) ∣ o) ∧
    ((generic_class_init 8 (bump_alloc 8) (foo_info 16 24 0 0) (fresh_state 8)).1
        = Outcome.returned ∧
      ∀ i, i < g_object_info_get_n_vfuncs (foo_info 16 24 0 0) →
        slot_installed 8 (bump_alloc 8) (foo_info 16 24 0 0) (fresh_state 8)
          (generic_class_init 8 (bump_alloc 8) (foo_info 16 24 0 0) (fresh_state 8)).2 i) :=
  ⟨rfl, by decide, by decide,
    generic_class_init_installs 8 (bump_alloc 8) (foo_info 16 24 0 0) _ (fresh_state 8) rfl
      (by decide) (by decide) (by decide)⟩

theorem new_stores_eq (w : Nat) (alloc : Allocator w) (info : GIObjectInfo) (st : State w) :
    new_stores st (generic_class_init w alloc info st).2 =
      (completed w alloc info.class_struct info.vfuncs st.callbacks).map Iteration.store := by
  unfold new_stores
  rw [generic_class_init_stores, List.drop_left]

theorem new_callbacks_eq (w : Nat) (alloc : Allocator w) (info : GIObjectInfo) (st : State w) :
    new_callbacks st (generic_class_init w alloc info st).2 =
      (completed w alloc info.class_struct info.vfuncs st.callbacks).map
        Iteration.callback_info := by
  unfold new_callbacks
  rw [generic_class_init_callbacks, List.drop_left]

theorem new_stores_snd (w : Nat) (alloc : Allocator w) (info : GIObjectInfo) (st : State w) :
    (new_stores st (generic_class_init w alloc info st).2).map Prod.snd =
      (new_callbacks st (generic_class_init w alloc info st).2).map
        GPerlI11nCallbackInfo.closure := by
  rw [new_stores_eq, new_callbacks_eq]
  simp [Iteration.store]

theorem exists_nonzero_byte_of_ne_NULL (w : Nat) (m : Memory) (off : Int)
    (h : G_STRUCT_MEMBER w m off ≠ NULL w) : ∃ j : Fin w, m (off + (j.val : Int)) ≠ 0 := by
  by_contra hcon
  apply h
  funext j
  have := not_exists.mp hcon j
  simpa [G_STRUCT_MEMBER, NULL] using this

/-- C2, as amended: for a type with a class struct descriptor and N virtual functions,
each with a matching field, whose matched fields occupy pairwise non-overlapping
pointer-sized slots, starting from an all-null class structure and with a factory that
returns a fresh non-null entry point on every call, `generic_class_init` returns after N pointer writes, and exactly the N slots
written are non-null: they hold the pairwise distinct entry points of the N trampolines
created, and every byte outside them is still zero. -/
theorem generic_class_init_exactly_n_slots (w : Nat) (alloc : Allocator w)
    (info : GIObjectInfo) (s : GIStructInfo) (st : State w)
    (hs : info.class_struct = some s)
    (hall : ∀ v ∈ info.vfuncs, (get_field_info (some s) v.name).isSome = true)
    (hdisj : (matched_offsets (some s) info.vfuncs).Pairwise (slot_disjoint w))
    (hnull : ∀ a, st.klass a = 0)
    (hfresh : fresh_entry_points st (generic_class_init w alloc info st).2) :
    (generic_class_init w alloc info st).1 = Outcome.returned ∧
    (new_stores st (generic_class_init w alloc info st).2).length
      = g_object_info_get_n_vfuncs info ∧
    (new_stores st (generic_class_init w alloc info st).2).map Prod.snd
      = (new_callbacks st (generic_class_init w alloc info st).2).map
          GPerlI11nCallbackInfo.closure ∧
    exactly_nonnull_slots w (generic_class_init w alloc info st).2.klass
      (new_stores st (generic_class_init w alloc info st).2) := by
  have hlen := completed_length_of_all w alloc (some s) info.vfuncs st.callbacks hall
  rw [← hs] at hlen hdisj
  have hpair := completed_stores_pairwise w alloc info.class_struct info.vfuncs st.callbacks hdisj
  refine ⟨?_, ?_, new_stores_snd w alloc info st, ?_, ?_, ?_, ?_⟩
  · rw [generic_class_init_outcome, if_pos hlen, hs]
  · rw [new_stores_eq, List.length_map, hlen]
    rfl
  · rw [new_stores_eq]
    exact hpair
  · rw [new_stores_snd]
    exact hfresh.1
  · intro x hx
    constructor
    · have hmem : x.2 ∈ (new_stores st (generic_class_init w alloc info st).2).map Prod.snd :=
        List.mem_map_of_mem _ hx
      rw [new_stores_snd] at hmem
      obtain ⟨cb, hcb, hcl⟩ := List.mem_map.mp hmem
      rw [← hcl]
      exact hfresh.2 cb hcb
    · rw [new_stores_eq] at hx
      rw [generic_class_init_klass]
      exact get_apply_stores_of_mem w _ st.klass hpair x hx
  · intro a ha
    rw [new_stores_eq] at ha
    rw [generic_class_init_klass, apply_stores_outside w _ st.klass a ha]
    exact hnull a

/-- The scenario of the specification from an all-null class structure: exactly the two
slots at offsets 16 and 24 are non-null afterwards. -/
theorem generic_class_init_exactly_n_slots_witness :
    (matched_offsets (foo_info 16 24 0 0).class_struct (foo_info 16 24 0 0).vfuncs).Pairwise
      (slot_disjoint 8) ∧
    fresh_entry_points (fresh_state 8)
      (generic_class_init 8 (bump_alloc 8) (foo_info 16 24 0 0) (fresh_state 8)).2 ∧
    ((generic_class_init 8 (bump_alloc 8) (foo_info 16 24 0 0) (fresh_state 8)).1
        = Outcome.returned ∧
      (new_stores (fresh_state 8)
        (generic_class_init 8 (bump_alloc 8) (foo_info 16 24 0 0) (fresh_state 8)).2).length
        = g_object_info_get_n_vfuncs (foo_info 16 24 0 0) ∧
      (new_stores (fresh_state 8)
        (generic_class_init 8 (bump_alloc 8) (foo_info 16 24 0 0) (fresh_state 8)).2).map Prod.snd
        = (new_callbacks (fresh_state 8)
            (generic_class_init 8 (bump_alloc 8) (foo_info 16 24 0 0) (fresh_state 8)).2).map
              GPerlI11nCallbackInfo.closure ∧
      exactly_nonnull_slots 8
        (generic_class_init 8 (bump_alloc 8) (foo_info 16 24 0 0) (fresh_state 8)).2.klass
        (new_stores (fresh_state 8)
          (generic_class_init 8 (bump_alloc 8) (foo_info 16 24 0 0) (fresh_state 8)).2)) :=
  ⟨by decide, ⟨by decide, by decide⟩,
    generic_class_init_exactly_n_slots 8 (bump_alloc 8) (foo_info 16 24 0 0) _ (fresh_state 8)
      rfl (by decide) (by decide) (fun _ => rfl) ⟨by decide, by decide⟩⟩

theorem same_offset_klass_nonzero (a : Int)
    (ha : (generic_class_init 8 (bump_alloc 8) (foo_info 16 16 0 0) (fresh_state 8)).2.klass a
      ≠ 0) : a = 16 := by
  have hk : (generic_class_init 8 (bump_alloc 8) (foo_info 16 16 0 0) (fresh_state 8)).2.klass
      = G_STRUCT_MEMBER_set 8 (G_STRUCT_MEMBER_set 8 (fun _ => 0) 16
          (bump_alloc 8 [] { tag := 1 } (ascii "DO_THING"))) 16
          (bump_alloc 8 [{ closure := bump_alloc 8 [] { tag := 1 } (ascii "DO_THING"),
                           sub_name := ascii "DO_THING", interface := { tag := 1 } }]
            { tag := 2 } (ascii "DO_OTHER")) := rfl
  rw [hk] at ha
  unfold G_STRUCT_MEMBER_set bump_alloc at ha
  by_contra hne
  apply ha
  by_cases h : (16 : Int) ≤ a ∧ a < 16 + ((8 : Nat) : Int)
  · rw [dif_pos h]
    have : (a - 16).toNat ≠ 0 := by omega
    simp [this]
  · rw [dif_neg h, dif_neg h]

/-- C2, as stated, fails: with two virtual functions whose fields are both at offset 16,
an all-null class structure and fresh non-null entry points, the call returns, but no two
non-overlapping slots of the class structure are non-null afterwards: the second write
replaced the first, and every non-zero byte lies in the slot at `class + 16`. -/
theorem same_offset_fields_one_slot :
    (foo_info 16 16 0 0).class_struct.isSome = true ∧
    (∀ v ∈ (foo_info 16 16 0 0).vfuncs,
      (get_field_info (foo_info 16 16 0 0).class_struct v.name).isSome = true) ∧
    (∀ a, (fresh_state 8).klass a = 0) ∧
    fresh_entry_points (fresh_state 8)
      (generic_class_init 8 (bump_alloc 8) (foo_info 16 16 0 0) (fresh_state 8)).2 ∧
    (generic_class_init 8 (bump_alloc 8) (foo_info 16 16 0 0) (fresh_state 8)).1
      = Outcome.returned ∧
    g_object_info_get_n_vfuncs (foo_info 16 16 0 0) = 2 ∧
    ¬ ∃ slots : List (Int × gpointer 8), slots.length = 2 ∧
        exactly_nonnull_slots 8
          (generic_class_init 8 (bump_alloc 8) (foo_info 16 16 0 0) (fresh_state 8)).2.klass
          slots := by
  refine ⟨rfl, by decide, fun _ => rfl, ⟨by decide, by decide⟩, by decide, rfl, ?_⟩
  rintro ⟨slots, hlen, hpair, -, hhold, -⟩
  match slots, hlen with
  | [x, y], _ =>
    have hxy : slot_disjoint 8 x.1 y.1 := by
      simpa using hpair
    have hx := hhold x (by simp)
    have hy := hhold y (by simp)
    obtain ⟨jx, hjx⟩ := exists_nonzero_byte_of_ne_NULL 8 _ x.1 (by rw [hx.2]; exact hx.1)
    obtain ⟨jy, hjy⟩ := exists_nonzero_byte_of_ne_NULL 8 _ y.1 (by rw [hy.2]; exact hy.1)
    have ex := same_offset_klass_nonzero _ hjx
    have ey := same_offset_klass_nonzero _ hjy
    have h1 := jx.isLt
    have h2 := jy.isLt
    unfold slot_disjoint at hxy
    omega

/-! ## The method name (claim C3) -/

theorem g_ascii_toupper_eq_spec (c : Nat) : g_ascii_toupper c = spec_uppercase_byte c := by
  have ha : 'a'.toNat = 97 := rfl
  have hz : 'z'.toNat = 122 := rfl
  have hA : 'A'.toNat = 65 := rfl
  unfold g_ascii_toupper g_ascii_islower spec_uppercase_byte
  rw [ha, hz, hA]
  by_cases h : 97 ≤ c ∧ c ≤ 122
  · simp only [h, and_self, decide_True, if_true]
    omega
  · simp only [h, decide_False, if_false, Bool.false_eq_true]

/-- C3, as amended: trampoline number `i` of a call (whether the call returns or aborts
later) was created by passing `create_callback_closure_for_named_sub` the type of the field
found for virtual function `i` and, as method identifier, `g_ascii_strup` of the name of
virtual function `i`, which is the identifier the trampoline is bound to; that identifier
has the length of the name, and byte for byte a byte `'a'..'z'` is replaced by the
corresponding `'A'..'Z'` while every other byte, non-ASCII ones included, is passed through
unchanged. Pointer write `i` of the call puts the entry point of that trampoline into the
slot at the offset of that field; and when the matched fields have pairwise distinct
offsets (each aligned for a pointer-sized write), the slot holds that entry point after
the call, so that the identifier bound to the trampoline in every patched slot is the
uppercased name of the virtual function of that slot. -/
theorem method_name_is_ascii_uppercase (w : Nat) (alloc : Allocator w) (info : GIObjectInfo)
    (st : State w) (i : Nat) (cb : GPerlI11nCallbackInfo w)
    (hcb : (new_callbacks st (generic_class_init w alloc info st).2)[i]? = some cb) :
    ∃ v f, info.vfuncs[i]? = some v ∧
      get_field_info info.class_struct v.name = some f ∧
      cb = create_callback_closure_for_named_sub w alloc
        (st.callbacks ++ (new_callbacks st (generic_class_init w alloc info st).2).take i)
        f.type (g_ascii_strup v.name) ∧
      cb.sub_name = g_ascii_strup v.name ∧
      cb.sub_name.length = v.name.length ∧
      (∀ (j c : Nat), v.name[j]? = some c → cb.sub_name[j]? = some (spec_uppercase_byte c)) ∧
      (new_stores st (generic_class_init w alloc info st).2)[i]? = some (f.offset, cb.closure) ∧
      ((matched_offsets info.class_struct info.vfuncs).Nodup →
        (∀ o ∈ matched_offsets info.class_struct info.vfuncs, (w : Int) ∣ o) →
        G_STRUCT_MEMBER w (generic_class_init w alloc info st).2.klass f.offset
          = cb.closure) := by
  rw [new_callbacks_eq] at hcb ⊢
  rw [List.getElem?_map] at hcb
  cases hx : (completed w alloc info.class_struct info.vfuncs st.callbacks)[i]? with
  | none => rw [hx] at hcb; cases hcb
  | some x =>
    rw [hx] at hcb
    have hcb' : x.callback_info = cb := Option.some.inj hcb
    obtain ⟨h1, h2, h3⟩ := completed_get w alloc _ _ _ i x hx
    have hname : cb.sub_name = g_ascii_strup x.vfunc_info.name := by
      rw [← hcb', h3]
      rfl
    refine ⟨x.vfunc_info, x.field_info, h1, h2, ?_, hname, ?_, ?_, ?_, ?_⟩
    · rw [← hcb', ← List.map_take]
      exact h3
    · rw [hname]
      simp [g_ascii_strup]
    · intro j c hc
      rw [hname]
      simp [g_ascii_strup, List.getElem?_map, hc, g_ascii_toupper_eq_spec]
    · rw [new_stores_eq, List.getElem?_map, hx, ← hcb']
      rfl
    · intro hnd halign
      rw [← hcb']
      exact slot_holds_closure w alloc info st
        (pairwise_disjoint_of_aligned w _ hnd halign) x (List.getElem?_mem hx)

/-- In the scenario of the specification the first trampoline is bound to `DO_THING`, and
the slot at `class + 16` holds its entry point after the call. -/
theorem method_name_is_ascii_uppercase_witness :
    (new_callbacks (fresh_state 8)
      (generic_class_init 8 (bump_alloc 8) (foo_info 16 24 0 0) (fresh_state 8)).2)[0]? =
      some { closure := bump_alloc 8 [] { tag := 1 } (ascii "DO_THING"),
             sub_name := ascii "DO_THING", interface := { tag := 1 } } ∧
    (matched_offsets (foo_info 16 24 0 0).class_struct (foo_info 16 24 0 0).vfuncs).Nodup ∧
    (∀ o ∈ matched_offsets (foo_info 16 24 0 0).class_struct (foo_info 16 24 0 0).vfuncs,
      ((8 : Nat) : Int) ∣ o) ∧
    ∃ v f, (foo_info 16 24 0 0).vfuncs[0]? = some v ∧
      get_field_info (foo_info 16 24 0 0).class_struct v.name = some f ∧
      ascii "DO_THING" = g_ascii_strup v.name ∧
      (ascii "DO_THING").length = v.name.length ∧
      (∀ (j c : Nat), v.name[j]? = some c →
        (ascii "DO_THING")[j]? = some (spec_uppercase_byte c)) ∧
      G_STRUCT_MEMBER 8
          (generic_class_init 8 (bump_alloc 8) (foo_info 16 24 0 0) (fresh_state 8)).2.klass
          f.offset
        = bump_alloc 8 [] { tag := 1 } (ascii "DO_THING") :=
  ⟨rfl, by decide, by decide,
    have h := method_name_is_ascii_uppercase 8 (bump_alloc 8) (foo_info 16 24 0 0)
      (fresh_state 8) 0
      { closure := bump_alloc 8 [] { tag := 1 } (ascii "DO_THING"),
        sub_name := ascii "DO_THING", interface := { tag := 1 } } rfl
    match h with
    | ⟨v, f, hv, hf, _, h1, h2, h3, _, h4⟩ =>
      ⟨v, f, hv, hf, h1, h2, h3, h4 (by decide) (by decide)⟩⟩

/-- C3, as stated, fails in its last clause: when the fields of `do_thing` and `do_other`
are both at offset 16, the slot patched for `do_thing` holds, after the call, the entry
point of the trampoline bound to `DO_OTHER`; no trampoline with that entry point is bound
to `DO_THING`, the uppercased name of the virtual function the slot was patched for. -/
theorem patched_slot_bound_to_other_name :
    (foo_info 16 16 0 0).vfuncs[0]? = some { name := ascii "do_thing", offset := 0 } ∧
    get_field_info (foo_info 16 16 0 0).class_struct (ascii "do_thing")
      = some { name := ascii "do_thing", offset := 16, type := { tag := 1 } } ∧
    g_ascii_strup (ascii "do_thing") = ascii "DO_THING" ∧
    (generic_class_init 8 (bump_alloc 8) (foo_info 16 16 0 0) (fresh_state 8)).1
      = Outcome.returned ∧
    (∃ cb ∈ new_callbacks (fresh_state 8)
        (generic_class_init 8 (bump_alloc 8) (foo_info 16 16 0 0) (fresh_state 8)).2,
      G_STRUCT_MEMBER 8
          (generic_class_init 8 (bump_alloc 8) (foo_info 16 16 0 0) (fresh_state 8)).2.klass 16
        = cb.closure ∧ cb.sub_name = ascii "DO_OTHER") ∧
    ¬ ∃ cb ∈ new_callbacks (fresh_state 8)
        (generic_class_init 8 (bump_alloc 8) (foo_info 16 16 0 0) (fresh_state 8)).2,
      G_STRUCT_MEMBER 8
          (generic_class_init 8 (bump_alloc 8) (foo_info 16 16 0 0) (fresh_state 8)).2.klass 16
        = cb.closure ∧ cb.sub_name = ascii "DO_THING" := by
  have e : new_callbacks (fresh_state 8)
      (generic_class_init 8 (bump_alloc 8) (foo_info 16 16 0 0) (fresh_state 8)).2
      = [{ closure := bump_alloc 8 [] { tag := 1 } (ascii "DO_THING"),
           sub_name := ascii "DO_THING", interface := { tag := 1 } },
         { closure := bump_alloc 8
             [{ closure := bump_alloc 8 [] { tag := 1 } (ascii "DO_THING"),
                sub_name := ascii "DO_THING", interface := { tag := 1 } }]
             { tag := 2 } (ascii "DO_OTHER"),
           sub_name := ascii "DO_OTHER", interface := { tag := 2 } }] := rfl
  refine ⟨rfl, by decide, by decide, by decide, ?_, ?_⟩
  · rw [e]
    refine ⟨_, List.mem_cons_of_mem _ (List.mem_cons_self _ _), ?_, rfl⟩
    decide
  · rw [e]
    rintro ⟨cb, hmem, hload, hname⟩
    rcases List.mem_cons.mp hmem with rfl | hmem
    · have h0 := congrFun hload ⟨0, by decide⟩
      revert h0
      decide
    · rcases List.mem_cons.mp hmem with rfl | hmem
      · revert hname
        decide
      · cases hmem

/-! ## Fatal conditions (claims C4 and C5) and the empty case (claim C6) -/

theorem completed_of_first_unmatched (w : Nat) (alloc : Allocator w)
    (si : Option GIStructInfo) (vs : List GIVFuncInfo) (live : List (GPerlI11nCallbackInfo w))
    (k : Nat) (v : GIVFuncInfo) (hk : vs[k]? = some v)
    (hnone : get_field_info si v.name = none)
    (hbefore : ∀ j u, j < k → vs[j]? = some u → (get_field_info si u.name).isSome = true) :
    completed w alloc si vs live = completed w alloc si (vs.take k) live ∧
    (completed w alloc si vs live).length = k := by
  induction vs generalizing live k with
  | nil => simp at hk
  | cons v0 vs ih =>
    cases k with
    | zero =>
      simp only [List.getElem?_cons_zero, Option.some.injEq] at hk
      subst hk
      simp [completed, hnone]
    | succ k =>
      have h0 := hbefore 0 v0 (Nat.succ_pos k) (by simp)
      simp only [List.getElem?_cons_succ] at hk
      cases hf : get_field_info si v0.name with
      | none => rw [hf] at h0; cases h0
      | some f =>
        have hih := ih (live ++ [create_callback_closure_for_named_sub w alloc live f.type
            (g_ascii_strup v0.name)]) k hk
          (fun j u hj hu => hbefore (j + 1) u (Nat.succ_lt_succ hj) (by simpa using hu))
        simp only [completed, hf, List.take_succ_cons, List.length_cons]
        exact ⟨by rw [← hih.1], by rw [hih.2]⟩

/-- C4: when `k` is the smallest virtual-function index whose name has no field in the
class struct, `generic_class_init` ends in the failed assertion of iteration `k`; the class
structure, the trampolines and the pointer writes at the abort are those of the call on
the type cut down to virtual functions `0 .. k-1` (a call that does not abort): `k`
trampolines were created and `k` slots written, none for virtual function `k` or later. -/
theorem generic_class_init_aborts_at_first_unmatched (w : Nat) (alloc : Allocator w)
    (info : GIObjectInfo) (st : State w) (k : Nat) (v : GIVFuncInfo)
    (hk : info.vfuncs[k]? = some v)
    (hnone : get_field_info info.class_struct v.name = none)
    (hbefore : ∀ j u, j < k → info.vfuncs[j]? = some u →
      (get_field_info info.class_struct u.name).isSome = true) :
    (generic_class_init w alloc info st).1 = Outcome.assert_field_info k ∧
    (∀ j, (generic_class_init w alloc { info with vfuncs := info.vfuncs.take k } st).1
      ≠ Outcome.assert_field_info j) ∧
    (generic_class_init w alloc info st).2.klass
      = (generic_class_init w alloc { info with vfuncs := info.vfuncs.take k } st).2.klass ∧
    (generic_class_init w alloc info st).2.callbacks
      = (generic_class_init w alloc { info with vfuncs := info.vfuncs.take k } st).2.callbacks ∧
    (generic_class_init w alloc info st).2.stores
      = (generic_class_init w alloc { info with vfuncs := info.vfuncs.take k } st).2.stores ∧
    (new_callbacks st (generic_class_init w alloc info st).2).length = k ∧
    (new_stores st (generic_class_init w alloc info st).2).length = k := by
  obtain ⟨heq, hlen⟩ := completed_of_first_unmatched w alloc info.class_struct info.vfuncs
    st.callbacks k v hk hnone hbefore
  have hklt : k < info.vfuncs.length := by
    rcases Nat.lt_or_ge k info.vfuncs.length with h | h
    · exact h
    · rw [List.getElem?_eq_none h] at hk
      cases hk
  have hlen0 : (completed w alloc info.class_struct (info.vfuncs.take k) st.callbacks).length
      = (info.vfuncs.take k).length := by
    rw [← heq, hlen, List.length_take]
    omega
  refine ⟨?_, ?_, ?_, ?_, ?_, ?_, ?_⟩
  · rw [generic_class_init_outcome, if_neg (by omega), hlen]
  · intro j
    rw [generic_class_init_outcome]
    simp only [hlen0, if_true]
    cases info.class_struct <;> simp
  · rw [generic_class_init_klass, generic_class_init_klass, heq]
  · rw [generic_class_init_callbacks, generic_class_init_callbacks, heq]
  · rw [generic_class_init_stores, generic_class_init_stores, heq]
  · rw [new_callbacks_eq, List.length_map, hlen]
  · rw [new_stores_eq, List.length_map, hlen]

/-- At the gap type the call aborts in iteration 1, after one trampoline and one write. -/
theorem generic_class_init_aborts_at_first_unmatched_witness :
    gap_info.vfuncs[1]? = some { name := ascii "no_field", offset := 32 } ∧
    get_field_info gap_info.class_struct (ascii "no_field") = none ∧
    ((generic_class_init 8 (bump_alloc 8) gap_info (fresh_state 8)).1
        = Outcome.assert_field_info 1 ∧
      (∀ j, (generic_class_init 8 (bump_alloc 8)
          { gap_info with vfuncs := gap_info.vfuncs.take 1 } (fresh_state 8)).1
        ≠ Outcome.assert_field_info j) ∧
      (generic_class_init 8 (bump_alloc 8) gap_info (fresh_state 8)).2.klass
        = (generic_class_init 8 (bump_alloc 8)
            { gap_info with vfuncs := gap_info.vfuncs.take 1 } (fresh_state 8)).2.klass ∧
      (generic_class_init 8 (bump_alloc 8) gap_info (fresh_state 8)).2.callbacks
        = (generic_class_init 8 (bump_alloc 8)
            { gap_info with vfuncs := gap_info.vfuncs.take 1 } (fresh_state 8)).2.callbacks ∧
      (generic_class_init 8 (bump_alloc 8) gap_info (fresh_state 8)).2.stores
        = (generic_class_init 8 (bump_alloc 8)
            { gap_info with vfuncs := gap_info.vfuncs.take 1 } (fresh_state 8)).2.stores ∧
      (new_callbacks (fresh_state 8)
        (generic_class_init 8 (bump_alloc 8) gap_info (fresh_state 8)).2).length = 1 ∧
      (new_stores (fresh_state 8)
        (generic_class_init 8 (bump_alloc 8) gap_info (fresh_state 8)).2).length = 1) :=
  ⟨rfl, by decide,
    generic_class_init_aborts_at_first_unmatched 8 (bump_alloc 8) gap_info (fresh_state 8) 1
      { name := ascii "no_field", offset := 32 } rfl (by decide)
      (fun j u hj hu => by
        have hj0 : j = 0 := by omega
        subst hj0
        have hu' : u = { name := ascii "do_thing", offset := 16 } := by
          simpa [gap_info] using hu.symm
        subst hu'
        decide)⟩

/-- C5, as amended: `generic_class_init` has no assertion on the class struct descriptor.
For a type descriptor that exposes none and has zero virtual functions, the call executes
no assertion: the loop body does not run, no slot of the class structure is written, no
trampoline is created, nothing is released before, and the null descriptor is handed
unchecked to the final `g_base_info_unref`. -/
theorem generic_class_init_without_class_struct (w : Nat) (alloc : Allocator w)
    (info : GIObjectInfo) (st : State w) (hs : info.class_struct = none)
    (hn : g_object_info_get_n_vfuncs info = 0) :
    (generic_class_init w alloc info st).1 = Outcome.unref_null ∧
    (∀ i, (generic_class_init w alloc info st).1 ≠ Outcome.assert_field_info i) ∧
    (generic_class_init w alloc info st).2.klass = st.klass ∧
    (generic_class_init w alloc info st).2.callbacks = st.callbacks ∧
    (generic_class_init w alloc info st).2.stores = st.stores ∧
    (generic_class_init w alloc info st).2.released = st.released := by
  have hv : info.vfuncs = [] := List.length_eq_zero.mp hn
  have hc : completed w alloc info.class_struct info.vfuncs st.callbacks = [] := by
    rw [hv]
    rfl
  have ho : (generic_class_init w alloc info st).1 = Outcome.unref_null := by
    rw [generic_class_init_outcome, hc, hv, hs]
    simp
  refine ⟨ho, ?_, ?_, ?_, ?_, ?_⟩
  · intro i
    rw [ho]
    exact fun h => Outcome.noConfusion h
  · rw [generic_class_init_klass, hc]
    rfl
  · rw [generic_class_init_callbacks, hc]
    simp
  · rw [generic_class_init_stores, hc]
    simp
  · rw [generic_class_init_eq, hc, hv, hs]
    simp [State.extend]

/-- The type with neither class struct descriptor nor virtual functions, on a class
structure that was already patched once for `Foo`: nothing is asserted and nothing
changes. -/
theorem generic_class_init_without_class_struct_witness :
    bare_info.class_struct = none ∧
    g_object_info_get_n_vfuncs bare_info = 0 ∧
    ((generic_class_init 8 (bump_alloc 8) bare_info
        (generic_class_init 8 (bump_alloc 8) (foo_info 16 24 0 0) (fresh_state 8)).2).1
      = Outcome.unref_null ∧
    (∀ i, (generic_class_init 8 (bump_alloc 8) bare_info
        (generic_class_init 8 (bump_alloc 8) (foo_info 16 24 0 0) (fresh_state 8)).2).1
      ≠ Outcome.assert_field_info i) ∧
    (generic_class_init 8 (bump_alloc 8) bare_info
        (generic_class_init 8 (bump_alloc 8) (foo_info 16 24 0 0) (fresh_state 8)).2).2.klass
      = (generic_class_init 8 (bump_alloc 8) (foo_info 16 24 0 0) (fresh_state 8)).2.klass ∧
    (generic_class_init 8 (bump_alloc 8) bare_info
        (generic_class_init 8 (bump_alloc 8) (foo_info 16 24 0 0) (fresh_state 8)).2).2.callbacks
      = (generic_class_init 8 (bump_alloc 8) (foo_info 16 24 0 0) (fresh_state 8)).2.callbacks ∧
    (generic_class_init 8 (bump_alloc 8) bare_info
        (generic_class_init 8 (bump_alloc 8) (foo_info 16 24 0 0) (fresh_state 8)).2).2.stores
      = (generic_class_init 8 (bump_alloc 8) (foo_info 16 24 0 0) (fresh_state 8)).2.stores ∧
    (generic_class_init 8 (bump_alloc 8) bare_info
        (generic_class_init 8 (bump_alloc 8) (foo_info 16 24 0 0) (fresh_state 8)).2).2.released
      = (generic_class_init 8 (bump_alloc 8) (foo_info 16 24 0 0) (fresh_state 8)).2.released) :=
  ⟨rfl, rfl,
    generic_class_init_without_class_struct 8 (bump_alloc 8) bare_info
      (generic_class_init 8 (bump_alloc 8) (foo_info 16 24 0 0) (fresh_state 8)).2 rfl rfl⟩

/-- C5, as stated, fails: for the type without class struct descriptor and without virtual
functions the call does not end in an assertion; it goes through to the final
`g_base_info_unref` with the null descriptor. -/
theorem no_assertion_on_class_struct :
    bare_info.class_struct = none ∧
    g_object_info_get_n_vfuncs bare_info = 0 ∧
    (generic_class_init 8 (bump_alloc 8) bare_info (fresh_state 8)).1 = Outcome.unref_null ∧
    ¬ ∃ i, (generic_class_init 8 (bump_alloc 8) bare_info (fresh_state 8)).1
        = Outcome.assert_field_info i := by
  refine ⟨rfl, rfl, rfl, ?_⟩
  rintro ⟨i, hi⟩
  have h : (generic_class_init 8 (bump_alloc 8) bare_info (fresh_state 8)).1
      = Outcome.unref_null := rfl
  rw [h] at hi
  cases hi

/-- C6: for a type with zero virtual functions and a present class struct descriptor the
call returns, creates no trampoline, performs no write and leaves every byte of the class
structure unchanged, and hands the class struct descriptor to `g_base_info_unref` exactly
once (and nothing else). -/
theorem generic_class_init_no_vfuncs (w : Nat) (alloc : Allocator w) (info : GIObjectInfo)
    (s : GIStructInfo) (st : State w) (hs : info.class_struct = some s)
    (hn : g_object_info_get_n_vfuncs info = 0) :
    (generic_class_init w alloc info st).1 = Outcome.returned ∧
    (generic_class_init w alloc info st).2.klass = st.klass ∧
    (generic_class_init w alloc info st).2.callbacks = st.callbacks ∧
    (generic_class_init w alloc info st).2.stores = st.stores ∧
    (generic_class_init w alloc info st).2.released
      = st.released ++ [GIBaseInfo.struct_info s] ∧
    (generic_class_init w alloc info st).2.released.count (GIBaseInfo.struct_info s)
      = st.released.count (GIBaseInfo.struct_info s) + 1 := by
  have hv : info.vfuncs = [] := List.length_eq_zero.mp hn
  have hc : completed w alloc info.class_struct info.vfuncs st.callbacks = [] := by
    rw [hv]
    rfl
  have hrel : (generic_class_init w alloc info st).2.released
      = st.released ++ [GIBaseInfo.struct_info s] := by
    rw [generic_class_init_eq, hc, hv, hs]
    simp [State.extend]
  refine ⟨?_, ?_, ?_, ?_, hrel, ?_⟩
  · rw [generic_class_init_outcome, hc, hv, hs]
    simp
  · rw [generic_class_init_klass, hc]
    rfl
  · rw [generic_class_init_callbacks, hc]
    simp
  · rw [generic_class_init_stores, hc]
    simp
  · rw [hrel]
    simp

/-- The class struct of `Foo` with no virtual function at all. -/
theorem generic_class_init_no_vfuncs_witness :
    g_object_info_get_n_vfuncs { foo_info 16 24 0 0 with vfuncs := [] } = 0 ∧
    (generic_class_init 8 (bump_alloc 8) { foo_info 16 24 0 0 with vfuncs := [] }
      (fresh_state 8)).2.released
      = (fresh_state 8).released ++ [GIBaseInfo.struct_info { fields := [
          { name := ascii "do_thing", offset := 16, type := { tag := 1 } },
          { name := ascii "do_other", offset := 24, type := { tag := 2 } }] }] :=
  ⟨rfl, (generic_class_init_no_vfuncs 8 (bump_alloc 8)
      { foo_info 16 24 0 0 with vfuncs := [] } _ (fresh_state 8) rfl rfl).2.2.2.2.1⟩

/-! ## Repeated calls (claim C7) -/

theorem completed_offsets_eq (w : Nat) (alloc : Allocator w) (si : Option GIStructInfo)
    (vs : List GIVFuncInfo) (live : List (GPerlI11nCallbackInfo w))
    (hall : ∀ v ∈ vs, (get_field_info si v.name).isSome = true) :
    ((completed w alloc si vs live).map Iteration.store).map Prod.fst
      = matched_offsets si vs := by
  induction vs generalizing live with
  | nil => simp [completed, matched_offsets]
  | cons v vs ih =>
    have hv := hall v (List.mem_cons_self _ _)
    unfold completed matched_offsets
    cases hf : get_field_info si v.name with
    | none => rw [hf] at hv; cases hv
    | some f =>
      simp only [List.map_cons, List.filterMap_cons, hf, Option.map_some']
      have := ih (live ++ [create_callback_closure_for_named_sub w alloc live f.type
        (g_ascii_strup v.name)]) (fun u hu => hall u (List.mem_cons_of_mem _ hu))
      unfold matched_offsets at this
      rw [this]
      rfl

theorem completed_last_slot (w : Nat) (alloc : Allocator w) (si : Option GIStructInfo)
    (vs : List GIVFuncInfo) (live : List (GPerlI11nCallbackInfo w)) (m : Memory)
    (hne : completed w alloc si vs live ≠ []) :
    G_STRUCT_MEMBER w (apply_stores w ((completed w alloc si vs live).map Iteration.store) m)
      ((completed w alloc si vs live).getLast hne).field_info.offset
      = ((completed w alloc si vs live).getLast hne).callback_info.closure := by
  have h := List.dropLast_append_getLast hne
  have h2 : (completed w alloc si vs live).map Iteration.store
      = (completed w alloc si vs live).dropLast.map Iteration.store
        ++ [((completed w alloc si vs live).getLast hne).store] := by
    conv_lhs => rw [← h]
    simp
  rw [h2]
  exact get_apply_stores_last w _ m _

theorem completed_last_field (w : Nat) (alloc : Allocator w) (si : Option GIStructInfo)
    (vs : List GIVFuncInfo) (live₁ live₂ : List (GPerlI11nCallbackInfo w))
    (h₁ : completed w alloc si vs live₁ ≠ []) (h₂ : completed w alloc si vs live₂ ≠ [])
    (hlen : (completed w alloc si vs live₁).length = (completed w alloc si vs live₂).length) :
    ((completed w alloc si vs live₁).getLast h₁).field_info
      = ((completed w alloc si vs live₂).getLast h₂).field_info := by
  have e₁ : (completed w alloc si vs live₁)[(completed w alloc si vs live₁).length - 1]?
      = some ((completed w alloc si vs live₁).getLast h₁) := by
    rw [← List.getLast?_eq_getElem?, List.getLast?_eq_getLast _ h₁]
  have e₂ : (completed w alloc si vs live₂)[(completed w alloc si vs live₂).length - 1]?
      = some ((completed w alloc si vs live₂).getLast h₂) := by
    rw [← List.getLast?_eq_getElem?, List.getLast?_eq_getLast _ h₂]
  obtain ⟨a1, a2, _⟩ := completed_get w alloc si vs live₁ _ _ e₁
  obtain ⟨b1, b2, _⟩ := completed_get w alloc si vs live₂ _ _ e₂
  rw [hlen, b1] at a1
  have hv := Option.some.inj a1
  rw [← hv, b2] at a2
  exact (Option.some.inj a2).symm

/-- C7: `generic_class_init` is not idempotent. For a type with N >= 1 virtual functions,
each with a matching field, and a factory that returns a fresh entry point on every call,
both of two successive calls on the same class structure return; each creates N
trampolines (2N in total); the second call writes, to the same offsets as the first, the
entry points of the N trampolines of the second batch; and the class structure after two
calls differs from the class structure after one. -/
theorem generic_class_init_not_idempotent (w : Nat) (alloc : Allocator w)
    (info : GIObjectInfo) (st : State w)
    (hall : ∀ v ∈ info.vfuncs, (get_field_info info.class_struct v.name).isSome = true)
    (hn : 1 ≤ g_object_info_get_n_vfuncs info)
    (hfresh : fresh_entry_points st
      (generic_class_init w alloc info (generic_class_init w alloc info st).2).2) :
    (generic_class_init w alloc info st).1 = Outcome.returned ∧
    (generic_class_init w alloc info (generic_class_init w alloc info st).2).1
      = Outcome.returned ∧
    (new_callbacks st (generic_class_init w alloc info st).2).length
      = g_object_info_get_n_vfuncs info ∧
    (new_callbacks (generic_class_init w alloc info st).2
      (generic_class_init w alloc info (generic_class_init w alloc info st).2).2).length
      = g_object_info_get_n_vfuncs info ∧
    (new_callbacks st
      (generic_class_init w alloc info (generic_class_init w alloc info st).2).2).length
      = 2 * g_object_info_get_n_vfuncs info ∧
    (new_stores st (generic_class_init w alloc info st).2).map Prod.fst
      = matched_offsets info.class_struct info.vfuncs ∧
    (new_stores (generic_class_init w alloc info st).2
      (generic_class_init w alloc info (generic_class_init w alloc info st).2).2).map Prod.fst
      = matched_offsets info.class_struct info.vfuncs ∧
    (new_stores (generic_class_init w alloc info st).2
      (generic_class_init w alloc info (generic_class_init w alloc info st).2).2).map Prod.snd
      = (new_callbacks (generic_class_init w alloc info st).2
          (generic_class_init w alloc info (generic_class_init w alloc info st).2).2).map
            GPerlI11nCallbackInfo.closure ∧
    (generic_class_init w alloc info (generic_class_init w alloc info st).2).2.klass
      ≠ (generic_class_init w alloc info st).2.klass := by
  unfold g_object_info_get_n_vfuncs at hn ⊢
  obtain ⟨s, hs⟩ : ∃ s, info.class_struct = some s := by
    cases hv : info.vfuncs with
    | nil => rw [hv] at hn; simp at hn
    | cons v vs =>
      have h := hall v (by rw [hv]; exact List.mem_cons_self _ _)
      cases hc : info.class_struct with
      | none => rw [hc] at h; simp [get_field_info] at h
      | some s => exact ⟨s, rfl⟩
  have hlen₁ := completed_length_of_all w alloc info.class_struct info.vfuncs st.callbacks hall
  have hlen₂ := completed_length_of_all w alloc info.class_struct info.vfuncs
    (generic_class_init w alloc info st).2.callbacks hall
  have hcb₂ : (generic_class_init w alloc info (generic_class_init w alloc info st).2).2.callbacks
      = st.callbacks
        ++ ((completed w alloc info.class_struct info.vfuncs st.callbacks).map
              Iteration.callback_info
          ++ (completed w alloc info.class_struct info.vfuncs
              (generic_class_init w alloc info st).2.callbacks).map Iteration.callback_info) := by
    rw [generic_class_init_callbacks w alloc info (generic_class_init w alloc info st).2,
      ← List.append_assoc]
    congr 1
    exact generic_class_init_callbacks w alloc info st
  have hnew : new_callbacks st
      (generic_class_init w alloc info (generic_class_init w alloc info st).2).2
      = (completed w alloc info.class_struct info.vfuncs st.callbacks).map
            Iteration.callback_info
          ++ (completed w alloc info.class_struct info.vfuncs
              (generic_class_init w alloc info st).2.callbacks).map Iteration.callback_info := by
    unfold new_callbacks
    rw [hcb₂, List.drop_left]
  refine ⟨?_, ?_, ?_, ?_, ?_, ?_, ?_, ?_, ?_⟩
  · rw [generic_class_init_outcome, if_pos hlen₁, hs]
  · rw [generic_class_init_outcome, if_pos hlen₂, hs]
  · rw [new_callbacks_eq, List.length_map, hlen₁]
  · rw [new_callbacks_eq, List.length_map, hlen₂]
  · rw [hnew, List.length_append, List.length_map, List.length_map, hlen₁, hlen₂]
    omega
  · rw [new_stores_eq]
    exact completed_offsets_eq w alloc _ _ _ hall
  · rw [new_stores_eq]
    exact completed_offsets_eq w alloc _ _ _ hall
  · exact new_stores_snd w alloc info _
  · intro hk
    have h₁ : completed w alloc info.class_struct info.vfuncs st.callbacks ≠ [] := by
      intro h
      rw [h] at hlen₁
      simp at hlen₁
      omega
    have h₂ : completed w alloc info.class_struct info.vfuncs
        (generic_class_init w alloc info st).2.callbacks ≠ [] := by
      intro h
      rw [h] at hlen₂
      simp at hlen₂
      omega
    have hfield := completed_last_field w alloc info.class_struct info.vfuncs st.callbacks
      (generic_class_init w alloc info st).2.callbacks h₁ h₂ (by rw [hlen₁, hlen₂])
    have hl₁ := completed_last_slot w alloc info.class_struct info.vfuncs st.callbacks
      st.klass h₁
    have hl₂ := completed_last_slot w alloc info.class_struct info.vfuncs
      (generic_class_init w alloc info st).2.callbacks (generic_class_init w alloc info st).2.klass
      h₂
    rw [← generic_class_init_klass] at hl₁ hl₂
    rw [hk, ← hfield, hl₁] at hl₂
    have hnd := hfresh.1
    rw [hnew, List.map_append, List.nodup_append] at hnd
    have m₁ : ((completed w alloc info.class_struct info.vfuncs
        st.callbacks).getLast h₁).callback_info.closure
        ∈ ((completed w alloc info.class_struct info.vfuncs st.callbacks).map
            Iteration.callback_info).map GPerlI11nCallbackInfo.closure :=
      List.mem_map_of_mem _ (List.mem_map_of_mem _ (List.getLast_mem h₁))
    have m₂ : ((completed w alloc info.class_struct info.vfuncs
        st.callbacks).getLast h₁).callback_info.closure
        ∈ ((completed w alloc info.class_struct info.vfuncs
            (generic_class_init w alloc info st).2.callbacks).map
            Iteration.callback_info).map GPerlI11nCallbackInfo.closure := by
      rw [hl₂]
      exact List.mem_map_of_mem _ (List.mem_map_of_mem _ (List.getLast_mem h₂))
    exact hnd.2.2 m₁ m₂

/-- Two calls on the scenario of the specification: four trampolines, and the class
structure after the second call differs from the one after the first. -/
theorem generic_class_init_not_idempotent_witness :
    1 ≤ g_object_info_get_n_vfuncs (foo_info 16 24 0 0) ∧
    fresh_entry_points (fresh_state 8)
      (generic_class_init 8 (bump_alloc 8) (foo_info 16 24 0 0)
        (generic_class_init 8 (bump_alloc 8) (foo_info 16 24 0 0) (fresh_state 8)).2).2 ∧
    (new_callbacks (fresh_state 8)
      (generic_class_init 8 (bump_alloc 8) (foo_info 16 24 0 0)
        (generic_class_init 8 (bump_alloc 8) (foo_info 16 24 0 0) (fresh_state 8)).2).2).length
      = 2 * g_object_info_get_n_vfuncs (foo_info 16 24 0 0) ∧
    (generic_class_init 8 (bump_alloc 8) (foo_info 16 24 0 0)
        (generic_class_init 8 (bump_alloc 8) (foo_info 16 24 0 0) (fresh_state 8)).2).2.klass
      ≠ (generic_class_init 8 (bump_alloc 8) (foo_info 16 24 0 0) (fresh_state 8)).2.klass :=
  ⟨by decide, ⟨by decide, by decide⟩,
    (generic_class_init_not_idempotent 8 (bump_alloc 8) (foo_info 16 24 0 0) (fresh_state 8)
      (by decide) (by decide) ⟨by decide, by decide⟩).2.2.2.2.1,
    (generic_class_init_not_idempotent 8 (bump_alloc 8) (foo_info 16 24 0 0) (fresh_state 8)
      (by decide) (by decide) ⟨by decide, by decide⟩).2.2.2.2.2.2.2.2⟩

/-! ## Write targets (claims C8 and C9) -/

/-- C8, as amended: when the fields matched to the virtual functions have pairwise distinct
offsets, no byte offset is the target of more than one of the pointer writes of a call of
`generic_class_init`, whether the call returns or aborts. -/
theorem generic_class_init_writes_once (w : Nat) (alloc : Allocator w) (info : GIObjectInfo)
    (st : State w) (hnd : (matched_offsets info.class_struct info.vfuncs).Nodup) :
    ((new_stores st (generic_class_init w alloc info st).2).map Prod.fst).Nodup := by
  rw [new_stores_eq]
  exact hnd.sublist (completed_offsets_sublist w alloc _ _ _)

/-- In the scenario of the specification the two writes go to offsets 16 and 24. -/
theorem generic_class_init_writes_once_witness :
    (matched_offsets (foo_info 16 24 0 0).class_struct (foo_info 16 24 0 0).vfuncs).Nodup ∧
    ((new_stores (fresh_state 8)
      (generic_class_init 8 (bump_alloc 8) (foo_info 16 24 0 0) (fresh_state 8)).2).map
        Prod.fst).Nodup :=
  ⟨by decide,
    generic_class_init_writes_once 8 (bump_alloc 8) (foo_info 16 24 0 0) (fresh_state 8)
      (by decide)⟩

/-- C8, as stated, fails: when the fields of two virtual functions are both at offset 16,
the call writes to offset 16 twice. -/
theorem same_offset_written_twice :
    (new_stores (fresh_state 8)
      (generic_class_init 8 (bump_alloc 8) (foo_info 16 16 0 0) (fresh_state 8)).2).map Prod.fst
      = [16, 16] ∧
    ¬ ((new_stores (fresh_state 8)
      (generic_class_init 8 (bump_alloc 8) (foo_info 16 16 0 0) (fresh_state 8)).2).map
        Prod.fst).Nodup := by
  constructor <;> decide

theorem completed_congr_names (w : Nat) (alloc : Allocator w) (si : Option GIStructInfo)
    (vs₁ vs₂ : List GIVFuncInfo) (live : List (GPerlI11nCallbackInfo w))
    (hnames : vs₁.map GIVFuncInfo.name = vs₂.map GIVFuncInfo.name) :
    (completed w alloc si vs₁ live).map Iteration.callback_info
      = (completed w alloc si vs₂ live).map Iteration.callback_info ∧
    (completed w alloc si vs₁ live).map Iteration.store
      = (completed w alloc si vs₂ live).map Iteration.store := by
  induction vs₁ generalizing vs₂ live with
  | nil =>
    cases vs₂ with
    | nil => exact ⟨rfl, rfl⟩
    | cons v vs => simp at hnames
  | cons v₁ vs₁ ih =>
    cases vs₂ with
    | nil => simp at hnames
    | cons v₂ vs₂ =>
      simp only [List.map_cons, List.cons.injEq] at hnames
      obtain ⟨hname, hrest⟩ := hnames
      unfold completed
      rw [← hname]
      cases hf : get_field_info si v₁.name with
      | none => exact ⟨rfl, rfl⟩
      | some f =>
        have := ih vs₂ (live ++ [create_callback_closure_for_named_sub w alloc live f.type
          (g_ascii_strup v₁.name)]) hrest
        refine ⟨?_, ?_⟩
        · simp only [List.map_cons, this.1]
        · simp only [List.map_cons, this.2]
          rfl

/-- C9: every pointer write of `generic_class_init` goes to the offset of the field that
name lookup finds for the virtual function of that iteration, and for two type descriptors
that differ only in what `g_vfunc_info_get_offset` reports (same class struct descriptor,
same virtual-function names in the same order) the calls end the same way and produce the
same class structure, the same trampolines and the same pointer writes. -/
theorem vfunc_offset_is_not_used (w : Nat) (alloc : Allocator w) (info₁ info₂ : GIObjectInfo)
    (st : State w)
    (hstruct : info₁.class_struct = info₂.class_struct)
    (hnames : info₁.vfuncs.map GIVFuncInfo.name = info₂.vfuncs.map GIVFuncInfo.name) :
    (∀ (i : Nat) (x : Int × gpointer w),
      (new_stores st (generic_class_init w alloc info₁ st).2)[i]? = some x →
      ∃ v f, info₁.vfuncs[i]? = some v ∧
        get_field_info info₁.class_struct v.name = some f ∧ x.1 = f.offset) ∧
    (generic_class_init w alloc info₁ st).1 = (generic_class_init w alloc info₂ st).1 ∧
    (generic_class_init w alloc info₁ st).2.klass
      = (generic_class_init w alloc info₂ st).2.klass ∧
    (generic_class_init w alloc info₁ st).2.callbacks
      = (generic_class_init w alloc info₂ st).2.callbacks ∧
    (generic_class_init w alloc info₁ st).2.stores
      = (generic_class_init w alloc info₂ st).2.stores := by
  obtain ⟨hcb, hstores⟩ := completed_congr_names w alloc info₁.class_struct info₁.vfuncs
    info₂.vfuncs st.callbacks hnames
  have hlenv : info₁.vfuncs.length = info₂.vfuncs.length := by
    simpa using congrArg List.length hnames
  have hlenc : (completed w alloc info₁.class_struct info₁.vfuncs st.callbacks).length
      = (completed w alloc info₁.class_struct info₂.vfuncs st.callbacks).length := by
    simpa using congrArg List.length hcb
  refine ⟨?_, ?_, ?_, ?_, ?_⟩
  · intro i x hx
    rw [new_stores_eq, List.getElem?_map] at hx
    cases hy : (completed w alloc info₁.class_struct info₁.vfuncs st.callbacks)[i]? with
    | none => rw [hy] at hx; cases hx
    | some y =>
      rw [hy] at hx
      obtain ⟨h1, h2, _⟩ := completed_get w alloc _ _ _ i y hy
      refine ⟨_, _, h1, h2, ?_⟩
      rw [← Option.some.inj hx]
      rfl
  · rw [generic_class_init_outcome, generic_class_init_outcome, ← hstruct, ← hlenv, ← hlenc]
  · rw [generic_class_init_klass, generic_class_init_klass, ← hstruct, hstores]
  · rw [generic_class_init_callbacks, generic_class_init_callbacks, ← hstruct, hcb]
  · rw [generic_class_init_stores, generic_class_init_stores, ← hstruct, hstores]

/-- The type `Foo` with reported virtual-function offsets `(0, 0)` and with `(136, 8)`:
same class structure, same trampolines. -/
theorem vfunc_offset_is_not_used_witness :
    (foo_info 16 24 0 0).class_struct = (foo_info 16 24 136 8).class_struct ∧
    (foo_info 16 24 0 0).vfuncs.map GIVFuncInfo.name
      = (foo_info 16 24 136 8).vfuncs.map GIVFuncInfo.name ∧
    (foo_info 16 24 0 0).vfuncs ≠ (foo_info 16 24 136 8).vfuncs ∧
    (generic_class_init 8 (bump_alloc 8) (foo_info 16 24 0 0) (fresh_state 8)).2.klass
      = (generic_class_init 8 (bump_alloc 8) (foo_info 16 24 136 8) (fresh_state 8)).2.klass ∧
    (generic_class_init 8 (bump_alloc 8) (foo_info 16 24 0 0) (fresh_state 8)).2.callbacks
      = (generic_class_init 8 (bump_alloc 8) (foo_info 16 24 136 8) (fresh_state 8)).2.callbacks :=
  ⟨rfl, rfl, by decide,
    (vfunc_offset_is_not_used 8 (bump_alloc 8) (foo_info 16 24 0 0) (foo_info 16 24 136 8)
      (fresh_state 8) rfl rfl).2.2.1,
    (vfunc_offset_is_not_used 8 (bump_alloc 8) (foo_info 16 24 0 0) (foo_info 16 24 136 8)
      (fresh_state 8) rfl rfl).2.2.2.1⟩

/-! ## Frame (claim C10) -/

/-- C10, as amended: whether `generic_class_init` returns or aborts, every byte of the
class structure outside the pointer-sized slots at the offsets of the fields matched to
the virtual functions processed (those before the abort, or all) keeps the value it had
before the call; in particular the slot of a field whose name is not the name of any
virtual function is not modified, provided it overlaps no slot of a matched field. -/
theorem generic_class_init_frame (w : Nat) (alloc : Allocator w) (info : GIObjectInfo)
    (st : State w) :
    (∀ a : Int,
      (∀ (j : Nat) (v : GIVFuncInfo) (f : GIFieldInfo),
        j < (new_callbacks st (generic_class_init w alloc info st).2).length →
        info.vfuncs[j]? = some v → get_field_info info.class_struct v.name = some f →
        ¬ in_slot w f.offset a) →
      (generic_class_init w alloc info st).2.klass a = st.klass a) ∧
    (∀ g : GIFieldInfo,
      (∀ v ∈ info.vfuncs, g.name ≠ v.name) →
      (∀ v ∈ info.vfuncs, ∀ f, get_field_info info.class_struct v.name = some f →
        slot_disjoint w f.offset g.offset) →
      G_STRUCT_MEMBER w (generic_class_init w alloc info st).2.klass g.offset
        = G_STRUCT_MEMBER w st.klass g.offset) := by
  constructor
  · intro a ha
    rw [generic_class_init_klass]
    apply apply_stores_outside
    intro x hx
    obtain ⟨y, hy, rfl⟩ := List.mem_map.mp hx
    obtain ⟨j, hj, hjy⟩ := List.getElem_of_mem hy
    have hget : (completed w alloc info.class_struct info.vfuncs st.callbacks)[j]? = some y := by
      rw [List.getElem?_eq_getElem hj, hjy]
    obtain ⟨h1, h2, _⟩ := completed_get w alloc _ _ _ j y hget
    exact ha j _ _ (by rw [new_callbacks_eq, List.length_map]; exact hj) h1 h2
  · intro g _ hg
    rw [generic_class_init_klass]
    apply get_apply_stores_of_disjoint
    intro x hx
    obtain ⟨y, hy, rfl⟩ := List.mem_map.mp hx
    obtain ⟨j, hj, hjy⟩ := List.getElem_of_mem hy
    have hget : (completed w alloc info.class_struct info.vfuncs st.callbacks)[j]? = some y := by
      rw [List.getElem?_eq_getElem hj, hjy]
    obtain ⟨h1, h2, _⟩ := completed_get w alloc _ _ _ j y hget
    exact hg _ (List.getElem?_mem h1) _ h2

/-- With only `do_thing` (at offset 16) a virtual function, the slot of the field
`do_other` at offset 24 is not modified; and when the call aborts at the gap type after
`do_thing`, the byte at offset 24 is unchanged although `do_other` has a field there. -/
theorem generic_class_init_frame_witness :
    (∀ v ∈ (one_vfunc_info 16 24).vfuncs, ascii "do_other" ≠ v.name) ∧
    G_STRUCT_MEMBER 8
        (generic_class_init 8 (bump_alloc 8) (one_vfunc_info 16 24) (fresh_state 8)).2.klass 24
      = G_STRUCT_MEMBER 8 (fresh_state 8).klass 24 ∧
    (generic_class_init 8 (bump_alloc 8) gap_info (fresh_state 8)).2.klass 24
      = (fresh_state 8).klass 24 :=
  ⟨by decide,
    (generic_class_init_frame 8 (bump_alloc 8) (one_vfunc_info 16 24) (fresh_state 8)).2
      { name := ascii "do_other", offset := 24, type := { tag := 2 } } (by decide)
      (fun v hv f hf => by
        have hv' : v = { name := ascii "do_thing", offset := 0 } := by
          simpa [one_vfunc_info] using hv
        subst hv'
        have e : get_field_info (one_vfunc_info 16 24).class_struct (ascii "do_thing")
            = some { name := ascii "do_thing", offset := 16, type := { tag := 1 } } := by decide
        rw [e] at hf
        rw [← Option.some.inj hf]
        decide),
    (generic_class_init_frame 8 (bump_alloc 8) gap_info (fresh_state 8)).1 24
      (fun j v f hj hv hf => by
        have hlen : (new_callbacks (fresh_state 8)
            (generic_class_init 8 (bump_alloc 8) gap_info (fresh_state 8)).2).length = 1 := rfl
        rw [hlen] at hj
        have hj0 : j = 0 := by omega
        subst hj0
        have hv' : v = { name := ascii "do_thing", offset := 16 } := by
          simpa [gap_info] using hv.symm
        subst hv'
        have e : get_field_info gap_info.class_struct (ascii "do_thing")
            = some { name := ascii "do_thing", offset := 16, type := { tag := 1 } } := by decide
        rw [e] at hf
        rw [← Option.some.inj hf]
        decide)⟩

/-- C10, as stated, fails: in a class struct whose fields `do_thing` and `do_other` are
both at offset 16, with `do_thing` the only virtual function, the slot of the field
`do_other`, whose name is not the name of any virtual function, is modified by the call. -/
theorem unmatched_field_slot_modified :
    ({ name := ascii "do_other", offset := 16, type := { tag := 2 } } : GIFieldInfo)
      ∈ (match (one_vfunc_info 16 16).class_struct with
          | some s => s.fields
          | none => []) ∧
    (∀ v ∈ (one_vfunc_info 16 16).vfuncs, ascii "do_other" ≠ v.name) ∧
    (generic_class_init 8 (bump_alloc 8) (one_vfunc_info 16 16) (fresh_state 8)).1
      = Outcome.returned ∧
    G_STRUCT_MEMBER 8
        (generic_class_init 8 (bump_alloc 8) (one_vfunc_info 16 16) (fresh_state 8)).2.klass 16
      ≠ G_STRUCT_MEMBER 8 (fresh_state 8).klass 16 := by
  refine ⟨by decide, by decide, by decide, by decide⟩

end GPerlI11n
